import Mathlib

/-!
Verification of the BMS analytics transformation scripts
(`BMS_Indication_Transformation.py`, `BMS_Monthly+LastTouch_Transformation.py`,
`BMS_Scroll_Transformation.py`).  The three scripts share the calendar
utilities, the report-period validator `check_full_period`, the marker-based
table extraction, and a melt/pivot/fill reshape pipeline.  Each Python
function used by the claims is embedded below as an executable Lean
definition; stateful behaviour of the `__main__` driver is embedded as a
pure function returning a `RunOutcome` record.
-/

set_option autoImplicit false

/-- Embeds `is_leap_year(year)`: `year % 4 == 0 and (year % 100 != 0 or
year % 400 == 0)`.  Python `%` with a positive modulus agrees with `Int.emod`. -/
def is_leap_year (year : Int) : Bool :=
  year % 4 == 0 && (year % 100 != 0 || year % 400 == 0)

/-- Embeds `days_in_month(year, month) = calendar.monthrange(year, month)[1]`:
the standard Gregorian day count, leap-aware for February. -/
def days_in_month (year : Nat) (month : Nat) : Nat :=
  if month = 2 then (if is_leap_year (year : Int) then 29 else 28)
  else if month = 4 ∨ month = 6 ∨ month = 9 ∨ month = 11 then 30
  else 31

/-- A calendar date, as carried by Python `datetime` values in the scripts
(time-of-day is always midnight there). -/
structure Date where
  month : Nat
  day : Nat
  year : Nat
deriving DecidableEq, Repr

/-- The dates `datetime.strptime` can produce: month 1..12, day within the
month, year at least 1. -/
def Date.Valid (d : Date) : Prop :=
  1 ≤ d.month ∧ d.month ≤ 12 ∧ 1 ≤ d.day ∧ d.day ≤ days_in_month d.year d.month ∧
    1 ≤ d.year ∧ d.year ≤ 9999

instance (d : Date) : Decidable d.Valid := by
  unfold Date.Valid; infer_instance

/-- Python `datetime` comparison `a <= b`: lexicographic on (year, month, day). -/
def Date.ble (a b : Date) : Bool :=
  decide (a.year < b.year ∨ (a.year = b.year ∧
    (a.month < b.month ∨ (a.month = b.month ∧ a.day ≤ b.day))))

/-- Leap years in `1..y` (proleptic Gregorian), as in Python's
`date.toordinal` arithmetic. -/
def leap_days_before (y : Nat) : Nat := y / 4 - y / 100 + y / 400

/-- Days in months `1..m-1` of the given year. -/
def days_before_month (year : Nat) : Nat → Nat
  | 0 => 0
  | 1 => 0
  | m + 2 => days_before_month year (m + 1) + days_in_month year (m + 1)

/-- Python `date.toordinal()`: day number with `0001-01-01 = 1`.  The
difference `(end - start).days` of two midnight datetimes equals the
difference of their ordinals. -/
def Date.toOrdinal (d : Date) : Nat :=
  365 * (d.year - 1) + leap_days_before (d.year - 1) +
    days_before_month d.year d.month + d.day

/-- `d + timedelta(days=1)` for a valid date. -/
def Date.addOneDay (d : Date) : Date :=
  if d.day < days_in_month d.year d.month then ⟨d.month, d.day + 1, d.year⟩
  else if d.month < 12 then ⟨d.month + 1, 1, d.year⟩
  else ⟨1, 1, d.year + 1⟩

/-- The `while current <= end` month-walk of `check_full_period`, with fuel
(the Python loop advances at least one month per iteration, so any fuel
larger than the month index of `e` is enough).  Returns the final
`(current, full_months_count)` pair. -/
def walk_months (e : Date) : Nat → Date → Nat → Date × Nat
  | 0, current, count => (current, count)
  | fuel + 1, current, count =>
    if Date.ble current e then
      let monthEnd : Date := ⟨current.month, days_in_month current.year current.month, current.year⟩
      if Date.ble monthEnd e then
        walk_months e fuel (Date.addOneDay monthEnd) (count + 1)
      else (current, count)
    else (current, count)

/-- Embeds the body of `check_full_period` after the two `strptime` calls:
the cross-year branch (Jan 1/Dec 31 alignment or a day-count of at least a
full year) and otherwise the whole-month walk, returning
`current > end and full_months_count > 0`. -/
def check_full_period_dates (s e : Date) : Bool :=
  if s.year ≠ e.year ∧ ((s.month = 1 ∧ s.day = 1 ∧ e.month = 12 ∧ e.day = 31) ∨
      (e.toOrdinal : Int) - (s.toOrdinal : Int) ≥
        (if is_leap_year (s.year : Int) then 366 else 365)) then
    true
  else
    !Date.ble (walk_months e (12 * e.year + e.month + 1) s 0).1 e &&
      decide (0 < (walk_months e (12 * e.year + e.month + 1) s 0).2)

/-- Numeric value of a decimal digit character. -/
def digitVal (c : Char) : Nat := c.toNat - 48

/-- Embeds `datetime.strptime(s, '%m%d%Y')`: exactly eight digits, split as
`MMDDYYYY`, then validated as a real calendar date (otherwise Python raises
`ValueError`, modelled as `none`). -/
def parseDateChars (cs : List Char) : Option Date :=
  match cs with
  | [m1, m2, d1, d2, y1, y2, y3, y4] =>
    if m1.isDigit && m2.isDigit && d1.isDigit && d2.isDigit &&
        y1.isDigit && y2.isDigit && y3.isDigit && y4.isDigit then
      let month := 10 * digitVal m1 + digitVal m2
      let day := 10 * digitVal d1 + digitVal d2
      let year := 1000 * digitVal y1 + 100 * digitVal y2 + 10 * digitVal y3 + digitVal y4
      if (⟨month, day, year⟩ : Date).Valid then some ⟨month, day, year⟩ else none
    else none
  | _ => none

/-- `check_full_period` on the two `MMDDYYYY` strings already split out of the
date range; `none` models the `ValueError` of a failed `strptime`. -/
def check_full_period_chars (start_date end_date : List Char) : Option Bool :=
  match parseDateChars start_date, parseDateChars end_date with
  | some s, some e => some (check_full_period_dates s e)
  | _, _ => none

/-- Embeds `check_full_period(start_date, end_date)` on `MMDDYYYY` strings. -/
def check_full_period (start_date end_date : String) : Option Bool :=
  check_full_period_chars start_date.data end_date.data

theorem parseDateChars_valid {cs : List Char} {d : Date}
    (h : parseDateChars cs = some d) : d.Valid := by
  unfold parseDateChars at h
  split at h
  · split at h
    · simp only [] at h
      split at h
      · rename_i hv
        cases h
        exact hv
      · exact absurd h (by simp)
    · exact absurd h (by simp)
  · exact absurd h (by simp)

theorem days_in_month_pos (y m : Nat) : 1 ≤ days_in_month y m := by
  unfold days_in_month
  split
  · split <;> omega
  · split <;> omega

/-- Month index: strictly monotone along the walk, used to size the fuel. -/
def monthKey (d : Date) : Nat := 12 * d.year + d.month

theorem Date.ble_iff (a b : Date) : Date.ble a b = true ↔
    (a.year < b.year ∨ (a.year = b.year ∧
      (a.month < b.month ∨ (a.month = b.month ∧ a.day ≤ b.day)))) := by
  simp [Date.ble]

theorem monthKey_le_of_ble {a b : Date} (ha : a.month ≤ 12) (hb : 1 ≤ b.month)
    (h : Date.ble a b = true) : monthKey a ≤ monthKey b := by
  rw [Date.ble_iff] at h
  unfold monthKey
  omega

/-- Characterization of the month-walk loop of `check_full_period`: with
enough fuel, the final `current > end and full_months_count > 0` test
succeeds exactly when the walk was entered (`current ≤ end`) and `end` is
the last day of its own month, or it was never entered and the incoming
count was already positive. -/
theorem walk_months_spec (e : Date) (he : e.Valid) (fuel : Nat) :
    ∀ current count, monthKey e < monthKey current + fuel →
      1 ≤ current.month → current.month ≤ 12 →
      current.day ≤ days_in_month current.year current.month →
      (!Date.ble (walk_months e fuel current count).1 e &&
        decide (0 < (walk_months e fuel current count).2)) =
      ((Date.ble current e && decide (e.day = days_in_month e.year e.month)) ||
        (!Date.ble current e && decide (0 < count))) := by
  induction fuel with
  | zero =>
    intro current count hfuel hm1 hm2 hd
    have hble : Date.ble current e = false := by
      rcases hb : Date.ble current e with _ | _
      · rfl
      · exact absurd (monthKey_le_of_ble hm2 he.1 hb) (by omega)
    simp [walk_months, hble]
  | succ fuel ih =>
    intro current count hfuel hm1 hm2 hd
    by_cases h1 : Date.ble current e = true
    · by_cases h2 : Date.ble ⟨current.month, days_in_month current.year current.month, current.year⟩ e = true
      · have hwalk : walk_months e (fuel + 1) current count =
            walk_months e fuel
              (Date.addOneDay ⟨current.month, days_in_month current.year current.month, current.year⟩)
              (count + 1) := by
          simp [walk_months, h1, h2]
        have h2p : current.year < e.year ∨ (current.year = e.year ∧
            (current.month < e.month ∨ (current.month = e.month ∧
              days_in_month current.year current.month ≤ e.day))) :=
          (Date.ble_iff ⟨current.month, days_in_month current.year current.month, current.year⟩ e).mp h2
        obtain ⟨hem1, hem2, hed1, hed2, hey1, hey2⟩ := he
        rcases Nat.lt_or_ge current.month 12 with hm12 | hm12
        · have hnext : Date.addOneDay ⟨current.month, days_in_month current.year current.month, current.year⟩ =
              ⟨current.month + 1, 1, current.year⟩ := by
            unfold Date.addOneDay
            simp [hm12]
          rw [hwalk, hnext]
          rw [ih ⟨current.month + 1, 1, current.year⟩ (count + 1)
            (by show monthKey e < 12 * current.year + (current.month + 1) + fuel
                unfold monthKey at hfuel ⊢; omega)
            (by show 1 ≤ current.month + 1; omega)
            (by show current.month + 1 ≤ 12; omega)
            (by show 1 ≤ days_in_month current.year (current.month + 1)
                exact days_in_month_pos _ _)]
          have hc1 : (0 < count + 1) := Nat.succ_pos count
          by_cases h3 : Date.ble ⟨current.month + 1, 1, current.year⟩ e = true
          · simp [h1, h3, hc1]
          · have h3p : ¬ (current.year < e.year ∨ (current.year = e.year ∧
                (current.month + 1 < e.month ∨ (current.month + 1 = e.month ∧ 1 ≤ e.day)))) :=
              (not_congr (Date.ble_iff ⟨current.month + 1, 1, current.year⟩ e)).mp h3
            have hy : e.year = current.year := by omega
            have hm : e.month = current.month := by omega
            rw [hy, hm] at hed2
            have hkey : e.day = days_in_month e.year e.month := by
              rw [hy, hm]; omega
            simp [h1, h3, hc1, hkey]
        · have hcm : current.month = 12 := by omega
          have hnext : Date.addOneDay ⟨current.month, days_in_month current.year current.month, current.year⟩ =
              ⟨1, 1, current.year + 1⟩ := by
            unfold Date.addOneDay
            simp [hcm]
          rw [hwalk, hnext]
          rw [ih ⟨1, 1, current.year + 1⟩ (count + 1)
            (by show monthKey e < 12 * (current.year + 1) + 1 + fuel
                unfold monthKey at hfuel ⊢; omega)
            (by show 1 ≤ 1; omega)
            (by show 1 ≤ 12; omega)
            (by show 1 ≤ days_in_month (current.year + 1) 1
                exact days_in_month_pos _ _)]
          have hc1 : (0 < count + 1) := Nat.succ_pos count
          by_cases h3 : Date.ble ⟨1, 1, current.year + 1⟩ e = true
          · simp [h1, h3, hc1]
          · have h3p : ¬ (current.year + 1 < e.year ∨ (current.year + 1 = e.year ∧
                (1 < e.month ∨ (1 = e.month ∧ 1 ≤ e.day)))) :=
              (not_congr (Date.ble_iff ⟨1, 1, current.year + 1⟩ e)).mp h3
            have hy : e.year = current.year := by omega
            have hm : e.month = current.month := by omega
            rw [hy, hm] at hed2
            have hkey : e.day = days_in_month e.year e.month := by
              rw [hy, hm]; omega
            simp [h1, h3, hc1, hkey]
      · have h1p := (Date.ble_iff current e).mp h1
        have h2p : ¬ (current.year < e.year ∨ (current.year = e.year ∧
            (current.month < e.month ∨ (current.month = e.month ∧
              days_in_month current.year current.month ≤ e.day)))) :=
          (not_congr (Date.ble_iff ⟨current.month, days_in_month current.year current.month, current.year⟩ e)).mp h2
        obtain ⟨hem1, hem2, hed1, hed2, hey1, hey2⟩ := he
        have hy : e.year = current.year := by omega
        have hm : e.month = current.month := by omega
        have hkey : ¬ e.day = days_in_month e.year e.month := by
          rw [hy, hm]; omega
        rw [Bool.not_eq_true] at h2
        simp [walk_months, h1, h2, hkey]
    · rw [Bool.not_eq_true] at h1
      simp [walk_months, h1]

/-- Full characterization of the period validator on parsed dates: it accepts
exactly the cross-year branch conditions (Jan 1 / Dec 31 alignment, or a
day-count difference of at least a full year), or a range with
`start ≤ end` whose end is the last day of its calendar month. -/
theorem check_full_period_dates_spec (s e : Date) (hs : s.Valid) (he : e.Valid) :
    check_full_period_dates s e = true ↔
      ((s.year ≠ e.year ∧ ((s.month = 1 ∧ s.day = 1 ∧ e.month = 12 ∧ e.day = 31) ∨
          (e.toOrdinal : Int) - (s.toOrdinal : Int) ≥
            (if is_leap_year (s.year : Int) then 366 else 365))) ∨
        (Date.ble s e = true ∧ e.day = days_in_month e.year e.month)) := by
  unfold check_full_period_dates
  by_cases hc : (s.year ≠ e.year ∧ ((s.month = 1 ∧ s.day = 1 ∧ e.month = 12 ∧ e.day = 31) ∨
      (e.toOrdinal : Int) - (s.toOrdinal : Int) ≥
        (if is_leap_year (s.year : Int) then 366 else 365)))
  · rw [if_pos hc]
    simp [hc]
  · rw [if_neg hc]
    rw [walk_months_spec e he (12 * e.year + e.month + 1) s 0
      (by have := hs.1; unfold monthKey; omega) hs.1 hs.2.1 hs.2.2.2.1]
    simp [hc, Bool.and_eq_true]

/-- C2 (counterexample): 2023-01-10 .. 2024-01-09 crosses years with an
inclusive day-count span of exactly 365 (counting both endpoints) and a
non-leap start year, yet `check_full_period` returns false: the code
compares the exclusive difference `(end - start).days` (here 364) against
365, not the inclusive span. -/
theorem c2_counterexample :
    check_full_period "01102023" "01092024" = some false ∧
    ((Date.toOrdinal ⟨1, 9, 2024⟩ : Int) - (Date.toOrdinal ⟨1, 10, 2023⟩ : Int)) + 1 = 365 ∧
    is_leap_year (2023 : Int) = false ∧
    (⟨1, 10, 2023⟩ : Date).year ≠ (⟨1, 9, 2024⟩ : Date).year := by
  refine ⟨by decide, by decide, by decide, by decide⟩

/-- C2 (amended): for cross-year ranges not aligned to Jan 1 / Dec 31,
`check_full_period` returns true whenever the exclusive day difference
`end − start` (not the inclusive span) is at least 365, or at least 366 when
the start year is a leap year. -/
theorem c2_amended (ss es : String) (s e : Date)
    (hps : parseDateChars ss.data = some s) (hpe : parseDateChars es.data = some e)
    (hyear : s.year ≠ e.year)
    (halign : ¬(s.month = 1 ∧ s.day = 1) ∨ ¬(e.month = 12 ∧ e.day = 31))
    (hspan : (e.toOrdinal : Int) - (s.toOrdinal : Int) ≥
      (if is_leap_year (s.year : Int) then 366 else 365)) :
    check_full_period ss es = some true := by
  unfold check_full_period check_full_period_chars
  rw [hps, hpe, Option.some_inj]
  unfold check_full_period_dates
  rw [if_pos ⟨hyear, Or.inr hspan⟩]

theorem c2_amended_witness :
    check_full_period "03152023" "03142024" = some true :=
  c2_amended "03152023" "03142024" ⟨3, 15, 2023⟩ ⟨3, 14, 2024⟩ (by decide) (by decide)
    (by decide) (Or.inr (by decide)) (by decide)

/-- C3 (counterexample): 2023-03-15 .. 2024-03-14 ends mid-month (March 14 is
not the last day of March), yet `check_full_period` returns true through the
cross-year day-count branch. -/
theorem c3_counterexample :
    check_full_period "03152023" "03142024" = some true ∧
    parseDateChars (String.data "03142024") = some ⟨3, 14, 2024⟩ ∧
    (⟨3, 14, 2024⟩ : Date).day ≠ days_in_month 2024 3 := by
  refine ⟨by decide, by decide, by decide⟩

/-- C3 (amended): a range whose end date is not the last day of its calendar
month makes `check_full_period` return false, unless the range crosses
calendar years and its day difference `end − start` reaches a full year
(at least 365 days, 366 when the start year is a leap year), in which case
it returns true regardless of the end day. -/
theorem c3_amended (ss es : String) (s e : Date)
    (hps : parseDateChars ss.data = some s) (hpe : parseDateChars es.data = some e)
    (hend : e.day ≠ days_in_month e.year e.month)
    (hnospan : ¬(s.year ≠ e.year ∧ (e.toOrdinal : Int) - (s.toOrdinal : Int) ≥
      (if is_leap_year (s.year : Int) then 366 else 365))) :
    check_full_period ss es = some false := by
  unfold check_full_period check_full_period_chars
  rw [hps, hpe, Option.some_inj]
  have hspec := check_full_period_dates_spec s e (parseDateChars_valid hps) (parseDateChars_valid hpe)
  rcases hb : check_full_period_dates s e with _ | _
  · rfl
  · exfalso
    rcases hspec.mp hb with h | h
    · rcases h.2 with h2 | h2
      · apply hend
        rw [h2.2.2.2, h2.2.2.1]
        rfl
      · exact hnospan ⟨h.1, h2⟩
    · exact hend h.2

theorem c3_amended_witness :
    check_full_period "02102024" "03152024" = some false :=
  c3_amended "02102024" "03152024" ⟨2, 10, 2024⟩ ⟨3, 15, 2024⟩ (by decide) (by decide)
    (by decide) (by decide)

/-- C4: the four documented examples of the validator: a single full January
2024, a partial January, the full (leap) year 2024, and three full months
spanning a leap February. -/
theorem c4_examples :
    check_full_period "01012024" "01312024" = some true ∧
    check_full_period "01012024" "01152024" = some false ∧
    check_full_period "01012024" "12312024" = some true ∧
    check_full_period "03012024" "05312024" = some true := by
  refine ⟨by decide, by decide, by decide, by decide⟩

/-- C5: `is_leap_year` implements the Gregorian rule for every integer year
(divisible by 4 and either not by 100 or by 400), with the documented
century-boundary values. -/
theorem c5_is_leap_year :
    (∀ y : Int, is_leap_year y = true ↔
      ((4 : Int) ∣ y ∧ (¬ (100 : Int) ∣ y ∨ (400 : Int) ∣ y))) ∧
    is_leap_year 1900 = false ∧ is_leap_year 2000 = true ∧
    is_leap_year 2024 = true ∧ is_leap_year 2023 = false := by
  refine ⟨fun y => ?_, by decide, by decide, by decide, by decide⟩
  simp only [is_leap_year, Bool.and_eq_true, Bool.or_eq_true, beq_iff_eq, bne_iff_ne, ne_eq]
  omega

/-- C10: `check_full_period` does not enforce start ≤ end: for start
2025-01-01 and end 2023-12-31 (start strictly after end) it returns true,
since the cross-year branch only inspects month/day fields. -/
theorem c10_no_order_check :
    check_full_period "01012025" "12312023" = some true ∧
    parseDateChars (String.data "01012025") = some ⟨1, 1, 2025⟩ ∧
    parseDateChars (String.data "12312023") = some ⟨12, 31, 2023⟩ ∧
    Date.ble ⟨1, 1, 2025⟩ ⟨12, 31, 2023⟩ = false := by
  refine ⟨by decide, by decide, by decide, by decide⟩

/-! ## Sheet model and marker-based extraction -/

/-- A spreadsheet cell as the scripts see it through `pandas`: a string, a
number, or an empty cell (`NaN`). -/
inductive Cell where
  | str : String → Cell
  | num : Int → Cell
  | blank : Cell
deriving DecidableEq, Repr

/-- A sheet row; `pandas` pads short rows with `NaN`, modelled by reading the
first cell with default `blank`. -/
abbrev Row := List Cell

/-- `df.iloc[i, 0]` for a given row. -/
def col0 (r : Row) : Cell := r.headD Cell.blank

/-- `df.iloc[i].isna().all()`: every cell of the row is empty. -/
def rowAllBlank (r : Row) : Bool := r.all (fun c => c == Cell.blank)

/-- Substring test on character lists (Python's `in` on strings). -/
def hasSubstr : List Char → List Char → Bool
  | [], needle => needle.isEmpty
  | c :: t, needle => needle.isPrefixOf (c :: t) || hasSubstr t needle

/-- The 46-character repeated-hash sentinel banner searched for by
`extract_indication_from_excel` / `extract_lasttouch_from_excel` /
`extract_scroll_from_excel`. -/
def bannerChars : List Char :=
  String.data "##############################################"

/-- Column 0 is a string containing the hash banner. -/
def rowHasBanner (r : Row) : Bool :=
  match col0 r with
  | Cell.str s => hasSubstr s.data bannerChars
  | _ => false

/-- The `for i in range(len(df)-1, -1, -1)` search: index of the last row
whose column 0 contains the banner. -/
def findLastBanner : List Row → Option Nat
  | [] => none
  | r :: rest =>
    match findLastBanner rest with
    | some i => some (i + 1)
    | none => if rowHasBanner r then some 0 else none

/-- Embeds `extract_indication_from_excel`: locate the last banner row and
return all rows after it; raise (`ValueError`) when the banner is absent. -/
def extract_indication_from_excel (sheet : List Row) : Except String (List Row) :=
  match findLastBanner sheet with
  | none => Except.error "Could not locate the Freeform table (2) in the Excel file."
  | some i => Except.ok (sheet.drop (i + 1))

/-- `extract_lasttouch_from_excel` is literally the same function in the
monthly/last-touch script. -/
def extract_lasttouch_from_excel (sheet : List Row) : Except String (List Row) :=
  extract_indication_from_excel sheet

/-- The `while end_idx < len(df)` scan of `extract_monthly_from_excel`:
advance from `idx` until an all-blank row or the end of the sheet. -/
def scanEnd (sheet : List Row) : Nat → Nat → Nat
  | 0, idx => idx
  | fuel + 1, idx =>
    if h : idx < sheet.length then
      if rowAllBlank (sheet.get ⟨idx, h⟩) then idx
      else scanEnd sheet fuel (idx + 1)
    else idx

/-- Embeds lines 151–164 of `extract_monthly_from_excel`: from `start_idx`,
find the first all-blank row; if none exists the table is malformed
(`ValueError`); otherwise slice `df.iloc[start_idx:end_idx]`. -/
def extract_monthly_block (sheet : List Row) (startIdx : Nat) : Except String (List Row) :=
  if scanEnd sheet sheet.length startIdx = sheet.length then
    Except.error "Could not find the end of the table. No blank row found after the start."
  else
    Except.ok ((sheet.drop startIdx).take (scanEnd sheet sheet.length startIdx - startIdx))

theorem rowHasBanner_nil : rowHasBanner [] = false := rfl

theorem findLastBanner_none_iff (sheet : List Row) :
    findLastBanner sheet = none ↔
      ∀ i, i < sheet.length → rowHasBanner (sheet.getD i []) = false := by
  induction sheet with
  | nil => simp [findLastBanner]
  | cons r rest ih =>
    constructor
    · intro h i hi
      rcases hx : findLastBanner rest with _ | j
      · have hb : rowHasBanner r = false := by
          rcases hbr : rowHasBanner r with _ | _
          · rfl
          · simp [findLastBanner, hx, hbr] at h
        match i with
        | 0 => simpa using hb
        | j + 1 =>
          have hj : j < rest.length := by simpa using hi
          simpa using (ih.mp hx) j hj
      · simp [findLastBanner, hx] at h
    · intro h
      have hb : rowHasBanner r = false := by simpa using h 0 (by simp)
      have hrest : findLastBanner rest = none :=
        ih.mpr (fun i hi => by
          simpa using h (i + 1) (by simpa using Nat.succ_lt_succ hi))
      simp [findLastBanner, hrest, hb]

theorem findLastBanner_some_spec (sheet : List Row) :
    ∀ i, findLastBanner sheet = some i →
      i < sheet.length ∧ rowHasBanner (sheet.getD i []) = true ∧
        ∀ j, j < sheet.length → i < j → rowHasBanner (sheet.getD j []) = false := by
  induction sheet with
  | nil => intro i h; simp [findLastBanner] at h
  | cons r rest ih =>
    intro i h
    rcases hx : findLastBanner rest with _ | k
    · have hall := (findLastBanner_none_iff rest).mp hx
      rcases hbr : rowHasBanner r with _ | _
      · simp [findLastBanner, hx, hbr] at h
      · have h0 : i = 0 := by
          simp [findLastBanner, hx, hbr] at h
          omega
        subst h0
        refine ⟨by simp, by simpa using hbr, ?_⟩
        intro j hj hpos
        match j with
        | 0 => omega
        | k + 1 =>
          have : k < rest.length := by simpa using hj
          simpa using hall k this
    · have hik : i = k + 1 := by
        simp [findLastBanner, hx] at h
        omega
      subst hik
      obtain ⟨hlen, hban, hafter⟩ := ih k hx
      refine ⟨by simp; omega, by simpa using hban, ?_⟩
      intro j hj hpos
      match j with
      | 0 => omega
      | m + 1 =>
        have hm : m < rest.length := by simpa using hj
        simpa using hafter m hm (by omega)

/-- C6: when some row's column 0 contains the hash banner, the sentinel
search selects the last such row (every later row is banner-free) and the
extracted sub-table is exactly the rows after it; when no row contains the
banner, extraction fails with the marker-not-found error. -/
theorem c6_sentinel_extraction (sheet : List Row) :
    (∀ i, i < sheet.length → rowHasBanner (sheet.getD i []) = true →
      (∀ j, j < sheet.length → i < j → rowHasBanner (sheet.getD j []) = false) →
      findLastBanner sheet = some i ∧
        extract_indication_from_excel sheet = Except.ok (sheet.drop (i + 1))) ∧
    ((∀ i, i < sheet.length → rowHasBanner (sheet.getD i []) = false) →
      extract_indication_from_excel sheet =
        Except.error "Could not locate the Freeform table (2) in the Excel file.") := by
  constructor
  · intro i hi hban hlast
    have hsome : findLastBanner sheet = some i := by
      rcases hx : findLastBanner sheet with _ | k
      · have := (findLastBanner_none_iff sheet).mp hx i hi
        rw [this] at hban
        cases hban
      · obtain ⟨hk, hbk, hkafter⟩ := findLastBanner_some_spec sheet k hx
        rcases Nat.lt_trichotomy i k with hik | hik | hik
        · have := hlast k hk hik
          rw [this] at hbk
          cases hbk
        · rw [hik]
        · have := hkafter i hi hik
          rw [this] at hban
          cases hban
    exact ⟨hsome, by simp [extract_indication_from_excel, hsome]⟩
  · intro h
    have hnone : findLastBanner sheet = none := (findLastBanner_none_iff sheet).mpr h
    simp [extract_indication_from_excel, hnone]

theorem c6_sentinel_extraction_witness :
    extract_indication_from_excel
        [[Cell.str "######:##############################################"],
         [Cell.str "data1"],
         [Cell.str "x ############################################## y"],
         [Cell.str "data2"], [Cell.num 7, Cell.blank]] =
      Except.ok [[Cell.str "data2"], [Cell.num 7, Cell.blank]] :=
  ((c6_sentinel_extraction
      [[Cell.str "######:##############################################"],
       [Cell.str "data1"],
       [Cell.str "x ############################################## y"],
       [Cell.str "data2"], [Cell.num 7, Cell.blank]]).1
    2 (by decide) (by decide) (by decide)).2

theorem scanEnd_ge (sheet : List Row) (fuel : Nat) : ∀ idx, idx ≤ scanEnd sheet fuel idx := by
  induction fuel with
  | zero => intro idx; simp [scanEnd]
  | succ fuel ih =>
    intro idx
    unfold scanEnd
    split
    · split
      · exact Nat.le_refl idx
      · exact Nat.le_trans (Nat.le_succ idx) (ih (idx + 1))
    · exact Nat.le_refl idx

theorem scanEnd_spec (sheet : List Row) (fuel : Nat) :
    ∀ idx, sheet.length ≤ idx + fuel → idx ≤ sheet.length →
      scanEnd sheet fuel idx ≤ sheet.length ∧
      (∀ h : scanEnd sheet fuel idx < sheet.length,
        rowAllBlank (sheet.get ⟨scanEnd sheet fuel idx, h⟩) = true) ∧
      (∀ k, (hk : k < sheet.length) → idx ≤ k → k < scanEnd sheet fuel idx →
        rowAllBlank (sheet.get ⟨k, hk⟩) = false) := by
  induction fuel with
  | zero =>
    intro idx hfuel hidx
    have hlen : idx = sheet.length := by omega
    subst hlen
    refine ⟨by simp [scanEnd], ?_, ?_⟩
    · intro h
      simp [scanEnd] at h
    · intro k hk hk1 hk2
      simp [scanEnd] at hk2
      omega
  | succ fuel ih =>
    intro idx hfuel hidx
    by_cases h : idx < sheet.length
    · by_cases hb : rowAllBlank (sheet.get ⟨idx, h⟩) = true
      · have hs : scanEnd sheet (fuel + 1) idx = idx := by
          unfold scanEnd
          rw [dif_pos h, if_pos hb]
        rw [hs]
        refine ⟨by omega, fun h2 => hb, ?_⟩
        intro k hk hk1 hk2
        omega
      · have hs : scanEnd sheet (fuel + 1) idx = scanEnd sheet fuel (idx + 1) := by
          simp only [scanEnd]
          rw [dif_pos h, if_neg hb]
        rw [hs]
        obtain ⟨ha, hblank, hbefore⟩ := ih (idx + 1) (by omega) (by omega)
        refine ⟨ha, hblank, ?_⟩
        intro k hk hk1 hk2
        rcases Nat.eq_or_lt_of_le hk1 with he | hlt
        · subst he
          exact Bool.eq_false_iff.mpr hb
        · exact hbefore k hk hlt hk2
    · have hlen : idx = sheet.length := by omega
      subst hlen
      have hs : scanEnd sheet (fuel + 1) sheet.length = sheet.length := by
        unfold scanEnd
        rw [dif_neg h]
      rw [hs]
      exact ⟨Nat.le_refl _, fun h2 => absurd h2 (lt_irrefl _),
        fun k hk hk1 hk2 => absurd hk2 (by omega)⟩

/-- C7 (amended): for a start index within the sheet, the until-blank-row
extractor returns exactly the rows from the start index up to the row before
the first all-empty row at or after it (order preserved, nothing dropped),
and errors when no all-empty row exists; a start index beyond the sheet
length, however, yields an empty block instead of the error (see the
counterexample). -/
theorem c7_until_blank (sheet : List Row) (startIdx : Nat)
    (hstart : startIdx ≤ sheet.length) :
    (∀ j, (hj : j < sheet.length) → startIdx ≤ j →
      rowAllBlank (sheet.get ⟨j, hj⟩) = true →
      (∀ k, (hk : k < sheet.length) → startIdx ≤ k → k < j →
        rowAllBlank (sheet.get ⟨k, hk⟩) = false) →
      extract_monthly_block sheet startIdx =
        Except.ok ((sheet.drop startIdx).take (j - startIdx))) ∧
    ((∀ j, (hj : j < sheet.length) → startIdx ≤ j →
      rowAllBlank (sheet.get ⟨j, hj⟩) = false) →
      extract_monthly_block sheet startIdx =
        Except.error "Could not find the end of the table. No blank row found after the start.") := by
  obtain ⟨ha, hblank, hbefore⟩ := scanEnd_spec sheet sheet.length startIdx (by omega) hstart
  have hge := scanEnd_ge sheet sheet.length startIdx
  constructor
  · intro j hj hsj hbj hprev
    have hsej : scanEnd sheet sheet.length startIdx = j := by
      rcases Nat.lt_trichotomy (scanEnd sheet sheet.length startIdx) j with hlt | he | hgt
      · have hsl : scanEnd sheet sheet.length startIdx < sheet.length := by omega
        have h1 := hblank hsl
        have h2 := hprev _ hsl hge hlt
        rw [h1] at h2
        cases h2
      · exact he
      · have h2 := hbefore j hj hsj hgt
        rw [hbj] at h2
        cases h2
    unfold extract_monthly_block
    rw [hsej, if_neg (by omega)]
  · intro hall
    have hlen : scanEnd sheet sheet.length startIdx = sheet.length := by
      rcases Nat.eq_or_lt_of_le ha with he | hlt
      · exact he
      · have h1 := hblank hlt
        have h2 := hall _ hlt hge
        rw [h1] at h2
        cases h2
    unfold extract_monthly_block
    rw [hlen, if_pos rfl]

/-- C7 (counterexample): with a start index beyond the sheet length (which the
caller produces when the table marker sits on the last row, making
`start_idx = len + 1`), no all-empty row exists at or after the start, yet
the extractor returns an empty block rather than raising the
malformed-table error: the Python `end_idx == len(df)` test does not fire
because `end_idx` stays at `start_idx > len(df)`. -/
theorem c7_counterexample :
    extract_monthly_block [[Cell.str "x"]] 2 = Except.ok [] ∧
    List.length [[Cell.str "x"]] < 2 := by
  exact ⟨rfl, by decide⟩

theorem c7_until_blank_witness :
    extract_monthly_block
        [[Cell.str "a"], [Cell.num 1, Cell.num 2], [Cell.blank, Cell.blank], [Cell.str "tail"]] 0 =
      Except.ok [[Cell.str "a"], [Cell.num 1, Cell.num 2]] :=
  (c7_until_blank
      [[Cell.str "a"], [Cell.num 1, Cell.num 2], [Cell.blank, Cell.blank], [Cell.str "tail"]]
      0 (by decide)).1
    2 (by decide) (by decide) (by decide) (by decide)

/-! ## The monthly/last-touch `__main__` driver -/

/-- Python `str.split(sep)` on character lists (with fuel; the separator is
always nonempty where used, so `s.length` fuel suffices). -/
def splitOnAuxC (sep : List Char) : Nat → List Char → List Char → List (List Char)
  | 0, s, acc => [acc.reverse ++ s]
  | fuel + 1, s, acc =>
    match s with
    | [] => [acc.reverse]
    | c :: t =>
      if sep.isPrefixOf (c :: t) then
        acc.reverse :: splitOnAuxC sep fuel (List.drop sep.length (c :: t)) []
      else splitOnAuxC sep fuel t (c :: acc)

def splitOnC (sep s : List Char) : List (List Char) := splitOnAuxC sep s.length s []

/-- Python `str.strip()`. -/
def trimChars (s : List Char) : List Char :=
  ((s.dropWhile Char.isWhitespace).reverse.dropWhile Char.isWhitespace).reverse

/-- Generic first-match scan over rows (the `for i, row in df.iterrows()`
loops with `break`). -/
def findFirstMap {α : Type} (f : Row → Option α) : List Row → Option α
  | [] => none
  | r :: rest =>
    match f r with
    | some v => some v
    | none => findFirstMap f rest

def suiteMarkerChars : List Char := "# Report suite: ".data

/-- Column 0 is a string starting with the report-suite marker. -/
def isSuiteRow (r : Row) : Bool :=
  match col0 r with
  | Cell.str s => suiteMarkerChars.isPrefixOf s.data
  | _ => false

/-- `row[0].split("# Report suite: ")[1].strip()`. -/
def suiteTextOf (r : Row) : List Char :=
  match col0 r with
  | Cell.str s => trimChars ((splitOnC suiteMarkerChars s.data).getD 1 [])
  | _ => []

def findSuite (sheet : List Row) : Option (List Char) :=
  findFirstMap (fun r => if isSuiteRow r then some (suiteTextOf r) else none) sheet

/-- The static suite-to-(brand, indication) mapping table. -/
def brandMapping : List (String × String × String) :=
  [("www.sotyktu.com_US_US", "Sotyktu", "psoriasis"),
   ("www.opdivo.com_US_US", "Opdivo", "cross indication"),
   ("www.augtyro.com_US_US", "Augtyro", "cross indication"),
   ("www.opdualag.com_US_US", "Opdualag", "cross indication"),
   ("www.breyanzi.com_US_US", "Breyanzi", "cross indication"),
   ("www.reblozyl.com_US_US", "Reblozyl", "cross indication"),
   ("www.onureg.com_US_US", "Onureg", "cross indication"),
   ("www.abecma.com_US_US", "Abecma", "cross indication"),
   ("www.krazati.com_Global_AA", "Krazati", "cross indication"),
   ("www.sprycel.com_US_US", "Sprycel", "cross indication"),
   ("www.orencia.com_US_US", "Orencia", "cross indication"),
   ("www.camzyos.com_US_US", "Camzyos Branded", "cross indication"),
   ("www.hcmrealtalk.com_US_US", "Camzyos Non-branded", "cross indication"),
   ("www.coulditbehcm.com_US_US", "Camzyos ME", "cross indication"),
   ("www.zeposia.com_US_US", "Zeposia", "cross indication"),
   ("cartautoimmune.com_US_AA", "CarT", "cross indication"),
   ("www.cobenfy.com_US_US", "Cobenfy", "cross indication")]

/-- Embeds `find_brand_and_indication`: locate the suite marker row, extract
the suite id, look it up in the static mapping; `ValueError` on a missing
marker or an unmapped suite. -/
def find_brand_and_indication (sheet : List Row) : Except String (String × String) :=
  match findSuite sheet with
  | none => Except.error "Could not find the Adobe Analytics suite marker in the Excel file."
  | some suite =>
    match brandMapping.find? (fun kv => kv.1.data == suite) with
    | some kv => Except.ok (kv.2.1, kv.2.2)
    | none => Except.error ("No mapping found for Adobe Analytics suite: " ++ String.mk suite)

def dateMarkerChars : List Char := "# Date: ".data

def isDateRow (r : Row) : Bool :=
  match col0 r with
  | Cell.str s => dateMarkerChars.isPrefixOf s.data
  | _ => false

def dateTextOf (r : Row) : List Char :=
  match col0 r with
  | Cell.str s => trimChars ((splitOnC dateMarkerChars s.data).getD 1 [])
  | _ => []

def findDateText (sheet : List Row) : Option (List Char) :=
  findFirstMap (fun r => if isDateRow r then some (dateTextOf r) else none) sheet

/-- `%b` month abbreviations accepted by `strptime`. -/
def monthAbbrevNum (t : List Char) : Option Nat :=
  if t = "Jan".data then some 1
  else if t = "Feb".data then some 2
  else if t = "Mar".data then some 3
  else if t = "Apr".data then some 4
  else if t = "May".data then some 5
  else if t = "Jun".data then some 6
  else if t = "Jul".data then some 7
  else if t = "Aug".data then some 8
  else if t = "Sep".data then some 9
  else if t = "Oct".data then some 10
  else if t = "Nov".data then some 11
  else if t = "Dec".data then some 12
  else none

def parseNatDigits (t : List Char) : Option Nat :=
  if t ≠ [] ∧ t.all Char.isDigit then
    some (t.foldl (fun acc c => 10 * acc + digitVal c) 0)
  else none

def dropComma (t : List Char) : Option (List Char) :=
  match t.reverse with
  | ',' :: rest => some rest.reverse
  | _ => none

/-- `datetime.strptime(text, '%b %d, %Y')` on a `"Mon DD, YYYY"` string,
validated as a real calendar date. -/
def parseMonthNameDate (s : List Char) : Option Date :=
  match splitOnC " ".data s with
  | [mon, dayc, yr] =>
    match monthAbbrevNum mon, dropComma dayc, parseNatDigits yr with
    | some m, some dtxt, some y =>
      match parseNatDigits dtxt with
      | some d => if (⟨m, d, y⟩ : Date).Valid then some ⟨m, d, y⟩ else none
      | none => none
    | _, _, _ => none
  | _ => none

def twoDigits (n : Nat) : List Char :=
  [Char.ofNat (48 + n / 10 % 10), Char.ofNat (48 + n % 10)]

def fourDigits (n : Nat) : List Char :=
  [Char.ofNat (48 + n / 1000 % 10), Char.ofNat (48 + n / 100 % 10),
   Char.ofNat (48 + n / 10 % 10), Char.ofNat (48 + n % 10)]

/-- `strftime('%m%d%Y')`. -/
def formatMMDDYYYY (d : Date) : List Char :=
  twoDigits d.month ++ twoDigits d.day ++ fourDigits d.year

/-- Embeds `find_report_date_range`: locate the date marker row, split on
`" - "`, parse both halves with the month-abbreviation format, and reformat
as `MMDDYYYY-MMDDYYYY`; `ValueError` on a missing marker or unparsable text. -/
def find_report_date_range (sheet : List Row) : Except String (List Char) :=
  match findDateText sheet with
  | none => Except.error "Could not find the report date range marker in the Excel file."
  | some txt =>
    match splitOnC " - ".data txt with
    | [a, b] =>
      match parseMonthNameDate a, parseMonthNameDate b with
      | some ds, some de => Except.ok (formatMMDDYYYY ds ++ ('-' :: formatMMDDYYYY de))
      | _, _ => Except.error ("Unexpected date format in the Excel file: " ++ String.mk txt)
    | _ => Except.error ("Unexpected date format in the Excel file: " ++ String.mk txt)

/-- The `re.match(r'^\d{8}-\d{8}$', date_range)` gate of `__main__`. -/
def dateRangeFormatOK (dr : List Char) : Bool :=
  dr.length == 17 && (dr.take 8).all Char.isDigit &&
    (dr.getD 8 ' ') == '-' && (dr.drop 9).all Char.isDigit

def removeSpaces (s : List Char) : List Char := s.filter (fun c => !(c == ' '))

/-- Column 0 contains `"# <marker-without-spaces>"` or `"# <marker>"`. -/
def monthlyMarkerRow (marker : List Char) (r : Row) : Bool :=
  match col0 r with
  | Cell.str s =>
    hasSubstr s.data ('#' :: ' ' :: removeSpaces marker) ||
      hasSubstr s.data ('#' :: ' ' :: marker)
  | _ => false

def findFirstIdx (p : Row → Bool) : List Row → Option Nat
  | [] => none
  | r :: rest => if p r then some 0 else (findFirstIdx p rest).map (fun n => n + 1)

/-- Embeds `extract_monthly_from_excel`: find the first marker row, skip two
rows, then slice until the first all-blank row (`extract_monthly_block`). -/
def extract_monthly_from_excel (sheet : List Row) (marker : String) : Except String (List Row) :=
  match findFirstIdx (monthlyMarkerRow marker.data) sheet with
  | none =>
    Except.error ("Could not find the start marker for " ++ marker ++
      " in column A of the Excel file.")
  | some i => extract_monthly_block sheet (i + 2)

/-- Outcome of one `transform_*_excel` call as the driver observes it:
normal completion (the output workbook is written), a raised `ValueError`
(caught by the enclosing `except` of the step), an early `return` after
printing a warning (the no-date-columns path, which raises nothing), or any
other uncaught exception, which terminates the whole process with exit
code 1. -/
inductive PyResult where
  | ok
  | valueError (msg : String)
  | skipped (msg : String)
  | uncaught (msg : String)
deriving DecidableEq, Repr

/-- Observable outcome of one run of the monthly/last-touch `__main__`:
process exit code, printed error messages, and whether each sub-table was
processed (its output workbook written). -/
structure RunOutcome where
  exitCode : Nat
  messages : List String
  lasttouchProcessed : Bool
  monthlyProcessed : Bool
deriving DecidableEq, Repr

/-- Step 3 of the driver: extract the MONTHLY block and run the monthly
transform, both inside one `try/except ValueError`; afterwards the script
falls through to cleanup and a normal exit, except when the transform
raises an uncaught (non-`ValueError`) exception. -/
def monthlyStep (tMO : List Row → PyResult) (sheet : List Row)
    (msgs : List String) (lt : Bool) : RunOutcome :=
  match extract_monthly_from_excel sheet "Freeform table" with
  | Except.error e => ⟨0, msgs ++ ["Error processing MONTHLY table: " ++ e], lt, false⟩
  | Except.ok block =>
    match tMO block with
    | PyResult.ok => ⟨0, msgs, lt, true⟩
    | PyResult.valueError m => ⟨0, msgs ++ ["Error processing MONTHLY table: " ++ m], lt, false⟩
    | PyResult.skipped m => ⟨0, msgs ++ [m], lt, false⟩
    | PyResult.uncaught m => ⟨1, msgs ++ [m], lt, false⟩

/-- Embeds the `__main__` driver of `BMS_Monthly+LastTouch_Transformation.py`.
The two reshape transforms are injected as collaborators `tLT` and `tMO`
(their internals are the Reshape Engine; this definition embeds the driver
control flow itself): step 1 (identity, date range, format gate, period
validation) exits with code 1 on any failure; step 2 runs the LASTTOUCH
extraction and transform inside `try/except ValueError` — a caught error or
an early skip records a message and control continues to step 3, while an
uncaught exception terminates the process with exit code 1 before step 3
runs; step 3 does the same for MONTHLY.  A sub-table is processed exactly
when both its extraction and its transform complete. -/
def mainMonthly (tLT tMO : List Row → PyResult) (sheet : List Row) : RunOutcome :=
  match find_brand_and_indication sheet with
  | Except.error e => ⟨1, [e], false, false⟩
  | Except.ok _bi =>
    match find_report_date_range sheet with
    | Except.error e => ⟨1, [e], false, false⟩
    | Except.ok dr =>
      if dateRangeFormatOK dr then
        match check_full_period_chars (dr.take 8) (dr.drop 9) with
        | none => ⟨1, ["ValueError: time data does not match the expected date format"], false, false⟩
        | some false => ⟨1, ["The date range does not include full months or a full year."], false, false⟩
        | some true =>
          match extract_lasttouch_from_excel sheet with
          | Except.error e =>
            monthlyStep tMO sheet ["Error processing LASTTOUCH table: " ++ e] false
          | Except.ok block =>
            match tLT block with
            | PyResult.ok => monthlyStep tMO sheet [] true
            | PyResult.valueError m =>
              monthlyStep tMO sheet ["Error processing LASTTOUCH table: " ++ m] false
            | PyResult.skipped m => monthlyStep tMO sheet [m] false
            | PyResult.uncaught m => ⟨1, [m], false, false⟩
      else ⟨1, ["Script unable to run due to only 1 day present in the report or incorrect date format."], false, false⟩

/-- A transform collaborator that always completes normally. -/
def pyOk : List Row → PyResult := fun _ => PyResult.ok

instance {e a : Type} [DecidableEq e] [DecidableEq a] : DecidableEq (Except e a) := fun x y =>
  match x, y with
  | Except.ok u, Except.ok v =>
    if h : u = v then Decidable.isTrue (by rw [h])
    else Decidable.isFalse (by intro hc; cases hc; exact h rfl)
  | Except.error u, Except.error v =>
    if h : u = v then Decidable.isTrue (by rw [h])
    else Decidable.isFalse (by intro hc; cases hc; exact h rfl)
  | Except.ok _, Except.error _ => Decidable.isFalse (by intro hc; cases hc)
  | Except.error _, Except.ok _ => Decidable.isFalse (by intro hc; cases hc)

theorem findFirstMap_none {α : Type} (f : Row → Option α) (sheet : List Row)
    (h : ∀ i, i < sheet.length → f (sheet.getD i []) = none) :
    findFirstMap f sheet = none := by
  induction sheet with
  | nil => rfl
  | cons r rest ih =>
    have h0 : f r = none := by simpa using h 0 (by simp)
    have hrest : findFirstMap f rest = none :=
      ih (fun i hi => by simpa using h (i + 1) (by simpa using Nat.succ_lt_succ hi))
    simp [findFirstMap, h0, hrest]

/-- A sheet with no identity (report-suite) marker. -/
def sheetMissingSuite : List Row := [[Cell.str "hello"], [Cell.blank]]

/-- A sheet with the identity marker but no date marker. -/
def sheetMissingDate : List Row :=
  [[Cell.str "# Report suite: www.sotyktu.com_US_US"], [Cell.str "other"]]

/-- A sheet passing all of step 1 whose LASTTOUCH sentinel banner (a
table-start marker) is absent while the MONTHLY marker is present. -/
def sheetNoLasttouch : List Row :=
  [[Cell.str "# Report suite: www.sotyktu.com_US_US"],
   [Cell.str "# Date: Jan 1, 2024 - Jan 31, 2024"],
   [Cell.str "# Freeform table"],
   [Cell.str "skip"],
   [Cell.str "January", Cell.num 5],
   [Cell.blank, Cell.blank]]

/-- A sheet passing all of step 1 on which both table-start markers are
absent: no hash banner (LASTTOUCH) and no Freeform-table marker (MONTHLY).
Both extractions raise a caught `ValueError`, so neither transform is ever
invoked and the run reaches its normal exit. -/
def sheetNoTables : List Row :=
  [[Cell.str "# Report suite: www.sotyktu.com_US_US"],
   [Cell.str "# Date: Jan 1, 2024 - Jan 31, 2024"],
   [Cell.str "data", Cell.num 1]]

/-- C8 (counterexample): on a sheet where both table-start markers are absent
but step 1 succeeds, the run does not abort with exit code 1: both
extraction errors are caught by the per-table `try/except`, a message is
printed for each, and the process reaches its normal end with exit code 0.
The transform collaborators are never reached (both extractions fail
first), so this trace is independent of their behaviour. -/
theorem c8_counterexample :
    findLastBanner sheetNoTables = none ∧
    findFirstIdx (monthlyMarkerRow ("Freeform table".data)) sheetNoTables = none ∧
    mainMonthly pyOk pyOk sheetNoTables =
      ⟨0, ["Error processing LASTTOUCH table: Could not locate the Freeform table (2) in the Excel file.",
           "Error processing MONTHLY table: Could not find the start marker for Freeform table in column A of the Excel file."],
        false, false⟩ := by
  refine ⟨by decide, by decide, by decide⟩

/-- C8 (amended): for every pair of transform behaviours, absence of the
identity marker or of the date marker aborts the whole run with a printed
message and exit code 1, before any sub-table is processed; absence of a
table-start marker, by contrast, does not abort: the caught error only adds
a message and control continues to the remaining sub-table — concretely,
with the LASTTOUCH banner absent the run proceeds to the MONTHLY step, and
(i) when the MONTHLY extraction and transform succeed the process exits
with code 0 having processed MONTHLY, while (ii) when the MONTHLY marker is
also absent the process exits with code 0 having processed nothing. -/
theorem c8_marker_failures (tLT tMO : List Row → PyResult) (sheet : List Row) :
    ((∀ i, i < sheet.length → isSuiteRow (sheet.getD i []) = false) →
      mainMonthly tLT tMO sheet =
        ⟨1, ["Could not find the Adobe Analytics suite marker in the Excel file."], false, false⟩) ∧
    ((∀ i, i < sheet.length → isDateRow (sheet.getD i []) = false) →
      ∀ b ind, find_brand_and_indication sheet = Except.ok (b, ind) →
      mainMonthly tLT tMO sheet =
        ⟨1, ["Could not find the report date range marker in the Excel file."], false, false⟩) ∧
    (∀ bi dr, find_brand_and_indication sheet = Except.ok bi →
      find_report_date_range sheet = Except.ok dr →
      dateRangeFormatOK dr = true →
      check_full_period_chars (dr.take 8) (dr.drop 9) = some true →
      (∀ i, i < sheet.length → rowHasBanner (sheet.getD i []) = false) →
      mainMonthly tLT tMO sheet =
        monthlyStep tMO sheet
          ["Error processing LASTTOUCH table: Could not locate the Freeform table (2) in the Excel file."]
          false ∧
      (∀ block, extract_monthly_from_excel sheet "Freeform table" = Except.ok block →
        tMO block = PyResult.ok →
        mainMonthly tLT tMO sheet =
          ⟨0, ["Error processing LASTTOUCH table: Could not locate the Freeform table (2) in the Excel file."],
            false, true⟩) ∧
      (findFirstIdx (monthlyMarkerRow ("Freeform table".data)) sheet = none →
        mainMonthly tLT tMO sheet =
          ⟨0, ["Error processing LASTTOUCH table: Could not locate the Freeform table (2) in the Excel file.",
               "Error processing MONTHLY table: Could not find the start marker for Freeform table in column A of the Excel file."],
            false, false⟩)) := by
  refine ⟨?_, ?_, ?_⟩
  · intro h
    have hs : findSuite sheet = none :=
      findFirstMap_none _ sheet (fun i hi => by rw [h i hi]; rfl)
    have hb : find_brand_and_indication sheet =
        Except.error "Could not find the Adobe Analytics suite marker in the Excel file." := by
      unfold find_brand_and_indication
      rw [hs]
    simp [mainMonthly, hb]
  · intro h b ind hbi
    have hd : findDateText sheet = none :=
      findFirstMap_none _ sheet (fun i hi => by rw [h i hi]; rfl)
    have hr : find_report_date_range sheet =
        Except.error "Could not find the report date range marker in the Excel file." := by
      unfold find_report_date_range
      rw [hd]
    simp [mainMonthly, hbi, hr]
  · intro bi dr hbi hdr hfmt hcheck hnoban
    have hlt : extract_lasttouch_from_excel sheet =
        Except.error "Could not locate the Freeform table (2) in the Excel file." := by
      unfold extract_lasttouch_from_excel extract_indication_from_excel
      rw [(findLastBanner_none_iff sheet).mpr hnoban]
    have hmain : mainMonthly tLT tMO sheet =
        monthlyStep tMO sheet
          ["Error processing LASTTOUCH table: Could not locate the Freeform table (2) in the Excel file."]
          false := by
      simp [mainMonthly, hbi, hdr, hfmt, hcheck, hlt]
    refine ⟨hmain, ?_, ?_⟩
    · intro block hblock htr
      rw [hmain]
      simp [monthlyStep, hblock, htr]
    · intro hno
      have hmo : extract_monthly_from_excel sheet "Freeform table" =
          Except.error ("Could not find the start marker for " ++ "Freeform table" ++
            " in column A of the Excel file.") := by
        unfold extract_monthly_from_excel
        rw [hno]
      rw [hmain]
      simp only [monthlyStep, hmo]
      rfl

theorem c8_marker_failures_witness :
    mainMonthly pyOk pyOk sheetMissingSuite =
      ⟨1, ["Could not find the Adobe Analytics suite marker in the Excel file."], false, false⟩ ∧
    mainMonthly pyOk pyOk sheetMissingDate =
      ⟨1, ["Could not find the report date range marker in the Excel file."], false, false⟩ ∧
    mainMonthly pyOk pyOk sheetNoLasttouch =
      ⟨0, ["Error processing LASTTOUCH table: Could not locate the Freeform table (2) in the Excel file."],
        false, true⟩ ∧
    mainMonthly pyOk pyOk sheetNoTables =
      ⟨0, ["Error processing LASTTOUCH table: Could not locate the Freeform table (2) in the Excel file.",
           "Error processing MONTHLY table: Could not find the start marker for Freeform table in column A of the Excel file."],
        false, false⟩ :=
  ⟨(c8_marker_failures pyOk pyOk sheetMissingSuite).1 (by decide),
   (c8_marker_failures pyOk pyOk sheetMissingDate).2.1 (by decide) "Sotyktu" "psoriasis" (by decide),
   ((c8_marker_failures pyOk pyOk sheetNoLasttouch).2.2 ("Sotyktu", "psoriasis")
       ("01012024-01312024".data) (by decide) (by decide) (by decide) (by decide)
       (by decide)).2.1
     [[Cell.str "January", Cell.num 5]] (by decide) rfl,
   ((c8_marker_failures pyOk pyOk sheetNoTables).2.2 ("Sotyktu", "psoriasis")
       ("01012024-01312024".data) (by decide) (by decide) (by decide) (by decide)
       (by decide)).2.2 (by decide)⟩

/-! ## The melt/pivot/fill reshape of `transform_indication_excel` -/

/-- One intermediate record of the melt step: the `INDICATION` key, the
metric and channel split out of the combined header label, and the cell
value (`none` models a blank/`NaN` source cell). -/
structure MeltRec where
  indication : String
  metric : String
  channel : String
  value : Option Int
deriving DecidableEq, Repr

/-- Split a combined header label at its first space (pandas
`str.split(' ', n=1)`), as `transform_indication_excel` does to recover
`(METRIC, CHANNEL)`. -/
def splitFirstSpace : List Char → List Char × List Char
  | [] => ([], [])
  | c :: t =>
    if c = ' ' then ([], t)
    else
      let p := splitFirstSpace t
      (c :: p.1, p.2)

/-- The two-level header combination of `transform_indication_excel`: spaces
are removed from the first level (the metric label) and the two levels are
joined with a single space. -/
def combineHeader (l0 l1 : String) : List Char :=
  removeSpaces l0.data ++ (' ' :: l1.data)

/-- `pd.melt` of one value column over all data rows. -/
def meltColumn (hd : String × String) (rows : List (String × List (Option Int)))
    (j : Nat) : List MeltRec :=
  rows.map (fun r =>
    { indication := r.1,
      metric := String.mk (splitFirstSpace (combineHeader hd.1 hd.2)).1,
      channel := String.mk (splitFirstSpace (combineHeader hd.1 hd.2)).2,
      value := r.2.getD j none })

/-- `pd.melt(df, id_vars=["INDICATION"], ...)`: columns stacked in order,
all rows per column. -/
def meltTable (header : List (String × String))
    (rows : List (String × List (Option Int))) : List MeltRec :=
  (header.enum.map (fun p => meltColumn p.2 rows p.1)).flatten

def recMatches (q : MeltRec) (ind ch m : String) : Bool :=
  q.indication == ind && q.channel == ch && q.metric == m

/-- The pivot cell for an `(INDICATION, CHANNEL)` index pair and a metric
column: the value of the matching melted record, `none` when the
combination is absent (pandas leaves `NaN`).  Duplicate combinations (which
`pivot_table` would aggregate) do not arise from well-formed single-key
input and are outside the claims. -/
def pivotCellOpt (recs : List MeltRec) (ind ch m : String) : Option Int :=
  match recs.find? (fun q => recMatches q ind ch m) with
  | some q => q.value
  | none => none

/-- The `fillna(0)` step applied to one numeric cell: any missing value
becomes 0. -/
def filledCell (recs : List MeltRec) (ind ch m : String) : Int :=
  (pivotCellOpt recs ind ch m).getD 0

/-- The pivot index: one row per distinct `(INDICATION, CHANNEL)` pair of the
melted records. -/
def pivotPairs (recs : List MeltRec) : List (String × String) :=
  (recs.map (fun q => (q.indication, q.channel))).dedup

/-- One output row of `transform_indication_excel` after pivot, rename,
reorder and fill: both numeric columns hold definite integers. -/
structure OutRow where
  indication : String
  channel : String
  visits : Int
  unbounced : Int
deriving DecidableEq, Repr

def mkOutRow (recs : List MeltRec) (p : String × String) : OutRow :=
  ⟨p.1, p.2, filledCell recs p.1 p.2 "Visits", filledCell recs p.1 p.2 "Unbouncedvisit"⟩

/-- Boolean lexicographic order on channel strings (the sort key). -/
def charListLt : List Char → List Char → Bool
  | [], [] => false
  | [], _ :: _ => true
  | _ :: _, [] => false
  | a :: as, b :: bs =>
    if a.toNat < b.toNat then true
    else if b.toNat < a.toNat then false
    else charListLt as bs

def insertByChannel (r : OutRow) : List OutRow → List OutRow
  | [] => [r]
  | x :: xs =>
    if charListLt r.channel.data x.channel.data then r :: x :: xs
    else x :: insertByChannel r xs

/-- The `sort_values(by=['CHANNEL'])` step (ordering is irrelevant to the
fill claim; membership is preserved). -/
def sortByChannel : List OutRow → List OutRow
  | [] => []
  | r :: rs => insertByChannel r (sortByChannel rs)

/-- Embeds the reshape pipeline of `transform_indication_excel` on a wide
table given as a two-level header (metric label, channel label) per value
column plus data rows of `(indication, cells)`: drop the first data row,
melt, pivot by `(INDICATION, CHANNEL)`, fill missing numeric cells with 0,
and sort by channel. -/
def transform_indication (header : List (String × String))
    (rows : List (String × List (Option Int))) : List OutRow :=
  sortByChannel ((pivotPairs (meltTable header (rows.drop 1))).map
    (mkOutRow (meltTable header (rows.drop 1))))

theorem mem_insertByChannel {r x : OutRow} {l : List OutRow} :
    x ∈ insertByChannel r l ↔ x = r ∨ x ∈ l := by
  induction l with
  | nil => simp [insertByChannel]
  | cons y ys ih =>
    unfold insertByChannel
    split
    · simp
    · simp [ih]
      tauto

theorem mem_sortByChannel {x : OutRow} {l : List OutRow} :
    x ∈ sortByChannel l ↔ x ∈ l := by
  induction l with
  | nil => simp [sortByChannel]
  | cons y ys ih => simp [sortByChannel, mem_insertByChannel, ih]

theorem filledCell_eq_zero (recs : List MeltRec) (ind ch m : String)
    (h : ∀ q ∈ recs, recMatches q ind ch m = true → q.value = none) :
    filledCell recs ind ch m = 0 := by
  unfold filledCell pivotCellOpt
  cases hf : recs.find? (fun q => recMatches q ind ch m) with
  | none => rfl
  | some q =>
    have hq := List.find?_some hf
    have hqmem := List.mem_of_find?_eq_some hf
    show q.value.getD 0 = 0
    rw [h q hqmem hq]
    rfl

/-! ### The melt/pivot/fill reshape of `transform_scroll_excel` -/

/-- Python `x.split()[0]`: the first whitespace-separated token, used by
`transform_scroll_excel` to recover the metric name from a combined header. -/
def firstTokenOf (cs : List Char) : List Char :=
  (cs.dropWhile Char.isWhitespace).takeWhile (fun c => !c.isWhitespace)

/-- The list starts with a match of the date pattern
`\d{4}-\d{2}-\d{2} \d{2}:\d{2}:\d{2}`. -/
def isDateTimeAt (cs : List Char) : Bool :=
  match cs with
  | a :: b :: c :: d :: '-' :: e :: f :: '-' :: g :: h :: ' ' :: i :: j :: ':' :: k :: l :: ':' :: m :: n :: _ =>
    a.isDigit && b.isDigit && c.isDigit && d.isDigit && e.isDigit && f.isDigit &&
      g.isDigit && h.isDigit && i.isDigit && j.isDigit && k.isDigit && l.isDigit &&
      m.isDigit && n.isDigit
  | _ => false

/-- `re.search(date_pattern, x)`: the leftmost 19-character match of the
`YYYY-MM-DD HH:MM:SS` pattern. -/
def findDateTimeSub : List Char → Option (List Char)
  | [] => none
  | c :: t => if isDateTimeAt (c :: t) then some ((c :: t).take 19) else findDateTimeSub t

def hasDateTime (cs : List Char) : Bool := (findDateTimeSub cs).isSome

/-- One intermediate record of the scroll melt: the `PAGE` key, the metric
(first token of the combined header), the activity month (date part of the
matched date-time), and the cell value (`none` for a blank source cell). -/
structure ScrollRec where
  page : String
  metric : String
  month : String
  value : Option Int
deriving DecidableEq, Repr

def meltScrollColumn (hd : String × String) (rows : List (String × List (Option Int)))
    (j : Nat) : List ScrollRec :=
  rows.map (fun r =>
    { page := r.1,
      metric := String.mk (firstTokenOf (combineHeader hd.1 hd.2)),
      month := String.mk (splitFirstSpace ((findDateTimeSub (combineHeader hd.1 hd.2)).getD [])).1,
      value := r.2.getD j none })

/-- `pd.melt` of `transform_scroll_excel`: only the columns whose combined
header contains the date-time pattern are melted, in header order. -/
def meltScroll (header : List (String × String))
    (rows : List (String × List (Option Int))) : List ScrollRec :=
  ((header.enum.filter (fun p => hasDateTime (combineHeader p.2.1 p.2.2))).map
    (fun p => meltScrollColumn p.2 rows p.1)).flatten

def scrollMatches (q : ScrollRec) (pg mo m : String) : Bool :=
  q.page == pg && q.month == mo && q.metric == m

/-- The scroll pivot cell for an `(ACTIVITY_MONTH, PAGE)` index pair and a
metric column; `none` when the combination is absent (`DataFrame.pivot`
leaves `NaN`; duplicate combinations, on which `pivot` raises, are outside
the claims). -/
def scrollCellOpt (recs : List ScrollRec) (pg mo m : String) : Option Int :=
  match recs.find? (fun q => scrollMatches q pg mo m) with
  | some q => q.value
  | none => none

/-- The `fillna(0)` step of the scroll table applied to one numeric cell. -/
def scrollFilled (recs : List ScrollRec) (pg mo m : String) : Int :=
  (scrollCellOpt recs pg mo m).getD 0

/-- The scroll pivot index: one row per distinct `(ACTIVITY_MONTH, PAGE)`
pair of the melted records. -/
def scrollPairs (recs : List ScrollRec) : List (String × String) :=
  (recs.map (fun q => (q.month, q.page))).dedup

/-- One output row of `transform_scroll_excel` after pivot, rename, reorder
and fill: all five numeric columns hold definite integers. -/
structure ScrollOutRow where
  page : String
  month : String
  pageViews : Int
  scroll25 : Int
  scroll50 : Int
  scroll75 : Int
  scroll100 : Int
deriving DecidableEq, Repr

def mkScrollOutRow (recs : List ScrollRec) (p : String × String) : ScrollOutRow :=
  ⟨p.2, p.1,
   scrollFilled recs p.2 p.1 "PageViews",
   scrollFilled recs p.2 p.1 "PageScroll25%",
   scrollFilled recs p.2 p.1 "PageScroll50%",
   scrollFilled recs p.2 p.1 "PageScroll75%",
   scrollFilled recs p.2 p.1 "PageScroll100%"⟩

def pageMonthLt (a b : ScrollOutRow) : Bool :=
  charListLt a.page.data b.page.data ||
    (a.page == b.page && charListLt a.month.data b.month.data)

def insertByPageMonth (r : ScrollOutRow) : List ScrollOutRow → List ScrollOutRow
  | [] => [r]
  | x :: xs => if pageMonthLt r x then r :: x :: xs else x :: insertByPageMonth r xs

/-- The `sort_values(by=['PAGE', 'ACTIVITY MONTH'])` step (ordering is
irrelevant to the fill claim; membership is preserved). -/
def sortScroll : List ScrollOutRow → List ScrollOutRow
  | [] => []
  | r :: rs => insertByPageMonth r (sortScroll rs)

/-- Embeds the reshape pipeline of `transform_scroll_excel` on a wide table
given as a two-level header (metric label, date-time label) per value column
plus data rows of `(page, cells)`: drop the first data row, melt the
date-pattern columns, pivot by `(ACTIVITY_MONTH, PAGE)`, fill missing
numeric cells with 0, and sort by page then month. -/
def transform_scroll (header : List (String × String))
    (rows : List (String × List (Option Int))) : List ScrollOutRow :=
  sortScroll ((scrollPairs (meltScroll header (rows.drop 1))).map
    (mkScrollOutRow (meltScroll header (rows.drop 1))))

theorem scrollFilled_eq_zero (recs : List ScrollRec) (pg mo m : String)
    (h : ∀ q ∈ recs, scrollMatches q pg mo m = true → q.value = none) :
    scrollFilled recs pg mo m = 0 := by
  unfold scrollFilled scrollCellOpt
  cases hf : recs.find? (fun q => scrollMatches q pg mo m) with
  | none => rfl
  | some q =>
    have hq := List.find?_some hf
    have hqmem := List.mem_of_find?_eq_some hf
    show q.value.getD 0 = 0
    rw [h q hqmem hq]
    rfl

theorem mem_insertByPageMonth {r x : ScrollOutRow} {l : List ScrollOutRow} :
    x ∈ insertByPageMonth r l ↔ x = r ∨ x ∈ l := by
  induction l with
  | nil => simp [insertByPageMonth]
  | cons y ys ih =>
    unfold insertByPageMonth
    split
    · simp
    · simp [ih]
      tauto

theorem mem_sortScroll {x : ScrollOutRow} {l : List ScrollOutRow} :
    x ∈ sortScroll l ↔ x ∈ l := by
  induction l with
  | nil => simp [sortScroll]
  | cons y ys ih => simp [sortScroll, mem_insertByPageMonth, ih]

/-- C9: in both reshape outputs (the channel-keyed indication table and the
period-keyed scroll table) every numeric metric cell of every row is a
definite integer equal to the filled pivot cell, and whenever every melted
record matching the row's key pair for a metric carries no value — covering
(entity, period/channel, metric) combinations absent from the source as well
as blank source cells — the filled cell is 0, never empty or null. -/
theorem c9_fill_zero (header : List (String × String))
    (rows : List (String × List (Option Int))) :
    (∀ r ∈ transform_indication header rows,
      r.visits = filledCell (meltTable header (rows.drop 1)) r.indication r.channel "Visits" ∧
      r.unbounced = filledCell (meltTable header (rows.drop 1)) r.indication r.channel "Unbouncedvisit" ∧
      ∀ m, (∀ q ∈ meltTable header (rows.drop 1),
          recMatches q r.indication r.channel m = true → q.value = none) →
        filledCell (meltTable header (rows.drop 1)) r.indication r.channel m = 0) ∧
    (∀ r ∈ transform_scroll header rows,
      r.pageViews = scrollFilled (meltScroll header (rows.drop 1)) r.page r.month "PageViews" ∧
      r.scroll25 = scrollFilled (meltScroll header (rows.drop 1)) r.page r.month "PageScroll25%" ∧
      r.scroll50 = scrollFilled (meltScroll header (rows.drop 1)) r.page r.month "PageScroll50%" ∧
      r.scroll75 = scrollFilled (meltScroll header (rows.drop 1)) r.page r.month "PageScroll75%" ∧
      r.scroll100 = scrollFilled (meltScroll header (rows.drop 1)) r.page r.month "PageScroll100%" ∧
      ∀ m, (∀ q ∈ meltScroll header (rows.drop 1),
          scrollMatches q r.page r.month m = true → q.value = none) →
        scrollFilled (meltScroll header (rows.drop 1)) r.page r.month m = 0) := by
  constructor
  · intro r hr
    unfold transform_indication at hr
    rw [mem_sortByChannel, List.mem_map] at hr
    obtain ⟨p, hp, hmk⟩ := hr
    subst hmk
    exact ⟨rfl, rfl, fun m hm => filledCell_eq_zero _ _ _ _ hm⟩
  · intro r hr
    unfold transform_scroll at hr
    rw [mem_sortScroll, List.mem_map] at hr
    obtain ⟨p, hp, hmk⟩ := hr
    subst hmk
    exact ⟨rfl, rfl, rfl, rfl, rfl, fun m hm => scrollFilled_eq_zero _ _ _ _ hm⟩

/-- A two-metric indication wide table whose real data row has a blank cell
in the `Unbounced visit` column (the first row is the discarded vendor
row). -/
def c9Header : List (String × String) := [("Visits", "Search"), ("Unbounced visit", "Search")]

def c9Rows : List (String × List (Option Int)) :=
  [("subtotal", [some 100, some 50]), ("psoriasis", [some 7, none])]

/-- A scroll wide table with one non-date column (skipped by the melt), a
`PageViews` column, and a `PageScroll50%` column whose real data cell is
blank; the `PageScroll25%` combination is entirely absent from the source. -/
def c9ScrollHeader : List (String × String) :=
  [("Junk", "label"),
   ("Page Views", "2024-01-01 00:00:00"),
   ("Page Scroll 50%", "2024-01-01 00:00:00")]

def c9ScrollRows : List (String × List (Option Int)) :=
  [("sub", [some 1, some 2, some 3]), ("/home", [some 4, some 9, none])]

theorem c9_fill_zero_witness :
    ((transform_indication c9Header c9Rows).getD 0 ⟨"", "", 5, 5⟩).unbounced = 0 ∧
    ((transform_scroll c9ScrollHeader c9ScrollRows).getD 0 ⟨"", "", 5, 5, 5, 5, 5⟩).scroll25 = 0 ∧
    ((transform_scroll c9ScrollHeader c9ScrollRows).getD 0 ⟨"", "", 5, 5, 5, 5, 5⟩).scroll50 = 0 :=
  ⟨(((c9_fill_zero c9Header c9Rows).1
      ((transform_indication c9Header c9Rows).getD 0 ⟨"", "", 5, 5⟩) (by decide)).2.1).trans
    (((c9_fill_zero c9Header c9Rows).1
      ((transform_indication c9Header c9Rows).getD 0 ⟨"", "", 5, 5⟩) (by decide)).2.2
      "Unbouncedvisit" (by decide)),
   (((c9_fill_zero c9ScrollHeader c9ScrollRows).2
      ((transform_scroll c9ScrollHeader c9ScrollRows).getD 0 ⟨"", "", 5, 5, 5, 5, 5⟩) (by decide)).2.1).trans
    (((c9_fill_zero c9ScrollHeader c9ScrollRows).2
      ((transform_scroll c9ScrollHeader c9ScrollRows).getD 0 ⟨"", "", 5, 5, 5, 5, 5⟩) (by decide)).2.2.2.2.2
      "PageScroll25%" (by decide)),
   (((c9_fill_zero c9ScrollHeader c9ScrollRows).2
      ((transform_scroll c9ScrollHeader c9ScrollRows).getD 0 ⟨"", "", 5, 5, 5, 5, 5⟩) (by decide)).2.2.1).trans
    (((c9_fill_zero c9ScrollHeader c9ScrollRows).2
      ((transform_scroll c9ScrollHeader c9ScrollRows).getD 0 ⟨"", "", 5, 5, 5, 5, 5⟩) (by decide)).2.2.2.2.2
      "PageScroll50%" (by decide))⟩
